import Mathlib

/-!
Shallow embedding of `src/modules/@angular/common/src/pipes/number_pipe.ts`:
the digit-spec mini-language parser (`_NUMBER_FORMAT_REGEXP` plus the field
extraction in `formatNumber`) and the format dispatcher (`formatNumber`,
`DecimalPipe.transform`, `PercentPipe.transform`, `CurrencyPipe.transform`).

The locale-formatting collaborator (`NumberFormatter.format` from the `intl`
facade) is external to the core: `formatNumber` here returns the fully
normalized call it would make (a `CollabCall`), or `none` for the null
short-circuit, or a typed error.  A wrapper `formatNumberWith` composes an
arbitrary collaborator function on top, recovering the string-or-null result
of the source.
-/

/-- Modelled from the spec: `NumberFormatStyle` from the `intl` facade (not
under `src/`); the spec's `Style`: `Decimal | Percent | Currency`. -/
inductive NumberFormatStyle where
  | Decimal
  | Percent
  | Currency
  deriving DecidableEq, Repr

/-- The three public entry points (the `pipe: Type<any>` tag passed to
`formatNumber` for diagnostics): `DecimalPipe`, `PercentPipe`,
`CurrencyPipe`. -/
inductive PipeTag where
  | DecimalPipe
  | PercentPipe
  | CurrencyPipe
  deriving DecidableEq, Repr

/-- Modelled from the spec: JavaScript numbers as seen by this core.  The
dispatcher never does arithmetic on the value, it only checks its runtime
type and forwards it, so the only structure needed is "NaN or a finite
value"; finite values are carried as rationals. -/
inductive JSNumber where
  | nan
  | num (q : ℚ)
  deriving DecidableEq, Repr

/-- Modelled from the spec: the runtime values a caller may pass as `value`
(the source types it `number | string` but the pipes accept `any`): null,
undefined, a number, a string, a boolean, or some other object. -/
inductive JSValue where
  | null
  | undefined
  | num (n : JSNumber)
  | str (s : String)
  | bool (b : Bool)
  | obj
  deriving DecidableEq, Repr

/-- Modelled from the spec: `isBlank` from the `lang` facade (not under
`src/`): true exactly for absent values (null / undefined). -/
def isBlank (v : JSValue) : Bool :=
  match v with
  | .null => true
  | .undefined => true
  | _ => false

/-- Modelled from the spec: `isString` from the `lang` facade (not under
`src/`). -/
def isString (v : JSValue) : Bool :=
  match v with
  | .str _ => true
  | _ => false

/-- Modelled from the spec: `isNumber` from the `lang` facade (not under
`src/`): a runtime type test, so NaN is a number. -/
def isNumber (v : JSValue) : Bool :=
  match v with
  | .num _ => true
  | _ => false

/-- Numeric value of a run of decimal digits, base 10. -/
def digitsVal (cs : List Char) : Nat :=
  cs.foldl (fun a c => a * 10 + (c.toNat - 48)) 0

/-- Exponent part of a numeric literal: an optionally signed nonempty digit
run, consumed to the end of the string. -/
def parseSignedDigits (cs : List Char) : Option Int :=
  match cs with
  | '+' :: r => if r ≠ [] ∧ r.all (·.isDigit) then some (digitsVal r) else none
  | '-' :: r => if r ≠ [] ∧ r.all (·.isDigit) then some (-(digitsVal r : Int)) else none
  | _ => if cs ≠ [] ∧ cs.all (·.isDigit) then some (digitsVal cs) else none

/-- Unsigned mantissa of a numeric literal: digits with an optional
fractional part, at least one digit overall ("42", "42.5", "42.", ".5"). -/
def parseUnsigned (cs : List Char) : Option (ℚ × List Char) :=
  let p := cs.span (·.isDigit)
  match p.2 with
  | '.' :: r2 =>
    let q := r2.span (·.isDigit)
    if p.1.isEmpty ∧ q.1.isEmpty then none
    else some ((digitsVal p.1 : ℚ) + (digitsVal q.1 : ℚ) / ((10 : ℚ) ^ q.1.length), q.2)
  | _ => if p.1.isEmpty then none else some ((digitsVal p.1 : ℚ), p.2)

/-- Modelled from the spec: `NumberWrapper.isNumeric` and the `+value`
coercion from the `lang` facade (not under `src/`).  Per the spec, a string
is coerced when it is lexically a valid number: a full-string numeric
literal, optionally signed, with an optional fractional part and/or
exponent.  Returns the equivalent numeric value on success. -/
def parseNumericString (s : String) : Option ℚ :=
  let p : Bool × List Char :=
    match s.data with
    | '-' :: r => (true, r)
    | '+' :: r => (false, r)
    | cs => (false, cs)
  match parseUnsigned p.2 with
  | none => none
  | some m =>
    let signed : ℚ := if p.1 then -m.1 else m.1
    match m.2 with
    | [] => some signed
    | e :: r =>
      if e = 'e' ∨ e = 'E' then
        match parseSignedDigits r with
        | some k => some (signed * (10 : ℚ) ^ k)
        | none => none
      else none

/-- The string-to-number coercion step of `formatNumber` (line 22 of the
source): `value = isString(value) && NumberWrapper.isNumeric(value) ? +value
: value`. -/
def coerceValue (value : JSValue) : JSValue :=
  match value with
  | .str s =>
    match parseNumericString s with
    | some q => .num (.num q)
    | none => .str s
  | v => v

/-- Modelled from the spec: `NumberWrapper.parseIntAutoRadix` from the
`lang` facade (not under `src/`).  Every call site passes a field matched by
`\d+`, a nonempty run of ASCII decimal digits, on which auto-radix parsing
is base 10 (no `0x` prefix can occur, and an ES5 `parseInt` without radix
treats a leading `0` as decimal), so on its actual domain the function is
total base-10 parsing. -/
def parseIntAutoRadix (cs : List Char) : Nat :=
  digitsVal cs

/-- Embedding of `_NUMBER_FORMAT_REGEXP = /^(\d+)?\.((\d+)(\-(\d+))?)?$/`
(line 16 of the source) as an anchored matcher: returns the captured groups
1, 3 and 5 (each a digit run, or `none` when its optional group did not
participate), or `none` when the string does not match.  Greedy `\d+` never
backtracks here because each group is followed by a non-digit literal or the
end, so maximal digit spans are exact. -/
def matchNumberFormat (s : String) :
    Option (Option (List Char) × Option (List Char) × Option (List Char)) :=
  let p1 := s.data.span (·.isDigit)
  let g1 : Option (List Char) := if p1.1.isEmpty then none else some p1.1
  match p1.2 with
  | '.' :: rest2 =>
    let p3 := rest2.span (·.isDigit)
    match p3.1, p3.2 with
    | [], [] => some (g1, none, none)
    | [], _ => none
    | g3, [] => some (g1, some g3, none)
    | g3, '-' :: rest4 =>
      let p5 := rest4.span (·.isDigit)
      match p5.1, p5.2 with
      | [], _ => none
      | g5, [] => some (g1, some g3, some g5)
      | _, _ :: _ => none
    | _, _ => none
  | _ => none

/-- The normalized options record handed to the locale collaborator
(the object literal at lines 52-58 of the source). -/
structure IntlOptions where
  minimumIntegerDigits : Option Nat
  minimumFractionDigits : Option Nat
  maximumFractionDigits : Option Nat
  currency : Option String
  currencyAsSymbol : Bool
  deriving DecidableEq, Repr

/-- The fully normalized call `formatNumber` makes to the external
`NumberFormatter.format` collaborator. -/
structure CollabCall where
  value : JSNumber
  locale : String
  style : NumberFormatStyle
  options : IntlOptions
  deriving DecidableEq, Repr

/-- Modelled from the spec: the two typed failures.  `invalidPipeArgument`
is `InvalidPipeArgumentError(pipe, value)` (its class lives in
`invalid_pipe_argument_error.ts`, not under `src/`), carrying the entry
point and the raw value; `invalidDigitInfo` is the
`Error(digits + " is not a valid digit info for number pipes")` throw,
carrying the raw spec string. -/
inductive PipeError where
  | invalidPipeArgument (pipe : PipeTag) (value : JSValue)
  | invalidDigitInfo (digits : String)
  deriving DecidableEq, Repr

/-- The style-conditional seeding of `minInt / minFraction / maxFraction`
(lines 30-35 of the source): non-currency styles get `(1, 0, 3)`, currency
leaves all three undefined. -/
def defaultBounds (style : NumberFormatStyle) :
    Option Nat × Option Nat × Option Nat :=
  if style = NumberFormatStyle.Currency then (none, none, none)
  else (some 1, some 0, some 3)

/-- Embedding of `formatNumber` (lines 18-59 of the source).  Instead of
invoking the external `NumberFormatter.format`, it returns the call it would
make; `.ok none` is the `return null` short-circuit for blank values, in
which no collaborator call happens. -/
def formatNumber (pipe : PipeTag) (locale : String) (value : JSValue)
    (style : NumberFormatStyle) (digits : Option String)
    (currency : Option String) (currencyAsSymbol : Bool) :
    Except PipeError (Option CollabCall) :=
  if isBlank value then .ok none
  else
    match coerceValue value with
    | .num n =>
      let bounds := defaultBounds style
      match digits with
      | none =>
        .ok (some ⟨n, locale, style,
          ⟨bounds.1, bounds.2.1, bounds.2.2, currency, currencyAsSymbol⟩⟩)
      | some d =>
        match matchNumberFormat d with
        | none => .error (.invalidDigitInfo d)
        | some g =>
          let minInt := match g.1 with
            | some ds => some (parseIntAutoRadix ds)
            | none => bounds.1
          let minFraction := match g.2.1 with
            | some ds => some (parseIntAutoRadix ds)
            | none => bounds.2.1
          let maxFraction := match g.2.2 with
            | some ds => some (parseIntAutoRadix ds)
            | none => bounds.2.2
          .ok (some ⟨n, locale, style,
            ⟨minInt, minFraction, maxFraction, currency, currencyAsSymbol⟩⟩)
    | v => .error (.invalidPipeArgument pipe v)

/-- The string-or-null result of the source's `formatNumber`, given a
collaborator function `g` standing for `NumberFormatter.format`. -/
def formatNumberWith (g : CollabCall → String) (pipe : PipeTag)
    (locale : String) (value : JSValue) (style : NumberFormatStyle)
    (digits : Option String) (currency : Option String)
    (currencyAsSymbol : Bool) : Except PipeError (Option String) :=
  (formatNumber pipe locale value style digits currency currencyAsSymbol).map
    (Option.map g)

/-- `DecimalPipe.transform` (lines 93-95 of the source): `digits` defaults
to null, and `formatNumber` is called with style `Decimal`, leaving
`currency = null` and `currencyAsSymbol = false` at their defaults. -/
def DecimalPipe_transform (locale : String) (value : JSValue)
    (digits : Option String) : Except PipeError (Option CollabCall) :=
  formatNumber .DecimalPipe locale value .Decimal digits none false

/-- `PercentPipe.transform` (lines 118-120 of the source). -/
def PercentPipe_transform (locale : String) (value : JSValue)
    (digits : Option String) : Except PipeError (Option CollabCall) :=
  formatNumber .PercentPipe locale value .Percent digits none false

/-- `CurrencyPipe.transform` (lines 155-161 of the source): parameter
defaults `currencyCode = 'USD'`, `symbolDisplay = false`, `digits = null`;
an omitted argument (modelled `none`) takes the default. -/
def CurrencyPipe_transform (locale : String) (value : JSValue)
    (currencyCode : Option String) (symbolDisplay : Option Bool)
    (digits : Option String) : Except PipeError (Option CollabCall) :=
  formatNumber .CurrencyPipe locale value .Currency digits
    (some (currencyCode.getD "USD")) (symbolDisplay.getD false)

example : matchNumberFormat "3.2-4" =
    some (some ['3'], some ['2'], some ['4']) := by decide
example : matchNumberFormat "" = none := by decide
example : matchNumberFormat "." = some (none, none, none) := by decide
example : matchNumberFormat ".2" = some (none, some ['2'], none) := by decide
example : matchNumberFormat "1.2.3" = none := by decide
example : matchNumberFormat "abc" = none := by decide
example : matchNumberFormat "1-2" = none := by decide
example : matchNumberFormat "1." = some (some ['1'], none, none) := by decide
example : parseNumericString "42.5" = some ((85 : ℚ) / 2) := by
  have h : parseNumericString "42.5" =
      some ((42 : ℚ) + (5 : ℚ) / (10 : ℚ) ^ (1 : ℕ)) := rfl
  rw [h]; norm_num
example : parseNumericString "-3" = some (-3 : ℚ) := by rfl
example : parseNumericString "1e2" = some (100 : ℚ) := by
  have h : parseNumericString "1e2" =
      some ((1 : ℚ) * (10 : ℚ) ^ (2 : ℤ)) := rfl
  rw [h]; norm_num
example : parseNumericString "abc" = none := by decide
example : parseNumericString "" = none := by decide

/-- Claim C1 counterexample: the claim says the digit-spec string `""`
succeeds with no overrides, but `""` does not match
`_NUMBER_FORMAT_REGEXP` (the regex requires the literal `.`), so
`formatNumber` throws the invalid-digit-info error for it. -/
theorem C1_counterexample :
    formatNumber .DecimalPipe "en-US" (.num (.num 1)) .Decimal (some "")
      none false = .error (.invalidDigitInfo "") := rfl

/-- Claim C1 (amended): for every style, the digit-spec string `""` raises
the invalid-digit-info error; a "no overrides" parse is obtained with an
absent spec, or with the string `"."` (which matches the grammar with all
three fields unset and yields exactly the same result as an absent spec),
and the absent-spec call succeeds. -/
theorem C1_amended_empty_spec (pipe : PipeTag) (locale : String)
    (n : JSNumber) (style : NumberFormatStyle) (c : Option String)
    (cas : Bool) :
    formatNumber pipe locale (.num n) style (some "") c cas =
        .error (.invalidDigitInfo "") ∧
      formatNumber pipe locale (.num n) style (some ".") c cas =
        formatNumber pipe locale (.num n) style none c cas ∧
      ∃ call, formatNumber pipe locale (.num n) style none c cas =
        .ok (some call) :=
  ⟨rfl, rfl, _, rfl⟩

/-- Claim C2: a digit-spec string parses successfully iff it matches the
fixed two-segment grammar of `_NUMBER_FORMAT_REGEXP`, and a non-matching
string fails with the invalid-digit-info error carrying the raw spec
string; concretely `"3.2-4"` yields bounds `(3, 2, 4)`, `"0.0-0"` yields
`(0, 0, 0)`, and `"1.2.3"`, `"abc"`, `"1-2"` each fail. -/
theorem C2_digit_spec_grammar :
    (∀ (pipe : PipeTag) (locale : String) (n : JSNumber)
        (style : NumberFormatStyle) (c : Option String) (cas : Bool)
        (d : String),
      formatNumber pipe locale (.num n) style (some d) c cas =
          .error (.invalidDigitInfo d) ↔ matchNumberFormat d = none) ∧
    (∀ (pipe : PipeTag) (locale : String) (n : JSNumber)
        (style : NumberFormatStyle) (c : Option String) (cas : Bool)
        (d : String),
      (∃ call, formatNumber pipe locale (.num n) style (some d) c cas =
          .ok (some call)) ↔ (matchNumberFormat d).isSome = true) ∧
    formatNumber .DecimalPipe "en-US" (.num (.num 1)) .Decimal
        (some "3.2-4") none false =
      .ok (some ⟨.num 1, "en-US", .Decimal,
        ⟨some 3, some 2, some 4, none, false⟩⟩) ∧
    formatNumber .DecimalPipe "en-US" (.num (.num 1)) .Decimal
        (some "0.0-0") none false =
      .ok (some ⟨.num 1, "en-US", .Decimal,
        ⟨some 0, some 0, some 0, none, false⟩⟩) ∧
    formatNumber .DecimalPipe "en-US" (.num (.num 1)) .Decimal
        (some "1.2.3") none false = .error (.invalidDigitInfo "1.2.3") ∧
    formatNumber .DecimalPipe "en-US" (.num (.num 1)) .Decimal
        (some "abc") none false = .error (.invalidDigitInfo "abc") ∧
    formatNumber .DecimalPipe "en-US" (.num (.num 1)) .Decimal
        (some "1-2") none false = .error (.invalidDigitInfo "1-2") := by
  refine ⟨?_, ?_, rfl, rfl, rfl, rfl, rfl⟩
  · intro pipe locale n style c cas d
    cases hm : matchNumberFormat d with
    | none => simp [formatNumber, coerceValue, isBlank, hm]
    | some g => simp [formatNumber, coerceValue, isBlank, hm]
  · intro pipe locale n style c cas d
    cases hm : matchNumberFormat d with
    | none => simp [formatNumber, coerceValue, isBlank, hm]
    | some g => simp [formatNumber, coerceValue, isBlank, hm]

/-- Claim C3: for every style and every absent (null / undefined) value the
dispatcher short-circuits to the absent result `.ok none`, raising no error
and making no collaborator call (also stated through the wrapper, for every
collaborator function). -/
theorem C3_blank_short_circuit (pipe : PipeTag) (locale : String)
    (style : NumberFormatStyle) (digits : Option String)
    (c : Option String) (cas : Bool) (g : CollabCall → String) :
    formatNumber pipe locale .null style digits c cas = .ok none ∧
      formatNumber pipe locale .undefined style digits c cas = .ok none ∧
      formatNumberWith g pipe locale .null style digits c cas = .ok none ∧
      formatNumberWith g pipe locale .undefined style digits c cas =
        .ok none :=
  ⟨rfl, rfl, rfl, rfl⟩

/-- Claim C4: every present value that is neither a number nor a string
coercible to a number makes each of the three entry points fail with the
invalid-pipe-argument error naming that entry point and carrying the raw
value. -/
theorem C4_invalid_input_error (locale : String) (v : JSValue)
    (digits : Option String) (cc : Option String) (sd : Option Bool)
    (h1 : isBlank v = false) (h2 : isNumber (coerceValue v) = false) :
    DecimalPipe_transform locale v digits =
        .error (.invalidPipeArgument .DecimalPipe v) ∧
      PercentPipe_transform locale v digits =
        .error (.invalidPipeArgument .PercentPipe v) ∧
      CurrencyPipe_transform locale v cc sd digits =
        .error (.invalidPipeArgument .CurrencyPipe v) := by
  have hco : coerceValue v = v := by
    cases v with
    | str s =>
      cases hp : parseNumericString s with
      | none => simp [coerceValue, hp]
      | some q => simp [coerceValue, isNumber, hp] at h2
    | _ => rfl
  cases v with
  | null => simp [isBlank] at h1
  | undefined => simp [isBlank] at h1
  | num n => rw [hco] at h2; simp [isNumber] at h2
  | str s =>
    refine ⟨?_, ?_, ?_⟩ <;>
      simp [DecimalPipe_transform, PercentPipe_transform,
        CurrencyPipe_transform, formatNumber, isBlank, hco]
  | bool b =>
    refine ⟨?_, ?_, ?_⟩ <;>
      simp [DecimalPipe_transform, PercentPipe_transform,
        CurrencyPipe_transform, formatNumber, isBlank, hco]
  | obj =>
    refine ⟨?_, ?_, ?_⟩ <;>
      simp [DecimalPipe_transform, PercentPipe_transform,
        CurrencyPipe_transform, formatNumber, isBlank, hco]

/-- Witness for C4 at the concrete value `true` (a boolean is present,
non-numeric, and not a numeric string). -/
theorem C4_witness :
    isBlank (.bool true) = false ∧
      isNumber (coerceValue (.bool true)) = false ∧
      (DecimalPipe_transform "en-US" (.bool true) none =
          .error (.invalidPipeArgument .DecimalPipe (.bool true)) ∧
        PercentPipe_transform "en-US" (.bool true) none =
          .error (.invalidPipeArgument .PercentPipe (.bool true)) ∧
        CurrencyPipe_transform "en-US" (.bool true) none none none =
          .error (.invalidPipeArgument .CurrencyPipe (.bool true))) :=
  ⟨rfl, rfl,
    C4_invalid_input_error "en-US" (.bool true) none none none rfl rfl⟩

/-- Claim C5: with no digit-spec, the decimal and percent entry points pass
bounds `minimumIntegerDigits = 1, minimumFractionDigits = 0,
maximumFractionDigits = 3` to the collaborator, while the currency entry
point leaves all three unset. -/
theorem C5_default_bounds (locale : String) (n : JSNumber)
    (cc : Option String) (sd : Option Bool) :
    DecimalPipe_transform locale (.num n) none =
        .ok (some ⟨n, locale, .Decimal,
          ⟨some 1, some 0, some 3, none, false⟩⟩) ∧
      PercentPipe_transform locale (.num n) none =
        .ok (some ⟨n, locale, .Percent,
          ⟨some 1, some 0, some 3, none, false⟩⟩) ∧
      CurrencyPipe_transform locale (.num n) cc sd none =
        .ok (some ⟨n, locale, .Currency,
          ⟨none, none, none, some (cc.getD "USD"), sd.getD false⟩⟩) :=
  ⟨rfl, rfl, rfl⟩

/-- Claim C6: for every collaborator, entry point, locale, style and
digit-spec, formatting a string that is lexically a valid number yields
exactly the same result as formatting the equivalent numeric value. -/
theorem C6_string_coercion (g : CollabCall → String) (pipe : PipeTag)
    (locale : String) (style : NumberFormatStyle) (digits : Option String)
    (c : Option String) (cas : Bool) (s : String) (q : ℚ)
    (h : parseNumericString s = some q) :
    formatNumberWith g pipe locale (.str s) style digits c cas =
      formatNumberWith g pipe locale (.num (.num q)) style digits c cas := by
  simp only [formatNumberWith, formatNumber, coerceValue, isBlank, h]

/-- Witness for C6 at the concrete numeric string `"-3"`. -/
theorem C6_witness :
    parseNumericString "-3" = some (-3 : ℚ) ∧
      formatNumberWith (fun _ => "out") .DecimalPipe "en-US" (.str "-3")
          .Decimal none none false =
        formatNumberWith (fun _ => "out") .DecimalPipe "en-US"
          (.num (.num (-3))) .Decimal none none false :=
  ⟨rfl, C6_string_coercion (fun _ => "out") .DecimalPipe "en-US" .Decimal
    none none false "-3" (-3) rfl⟩

/-- Claim C7: the digit-spec `".2"` overrides only the minimum fraction
digits: for every style, the call made with spec `".2"` has
`minimumFractionDigits = 2` while its minimum integer digits and maximum
fraction digits equal those of the call made with no spec. -/
theorem C7_fieldwise_override (pipe : PipeTag) (locale : String)
    (n : JSNumber) (style : NumberFormatStyle) (c : Option String)
    (cas : Bool) :
    ∃ call₀ call₂,
      formatNumber pipe locale (.num n) style none c cas =
          .ok (some call₀) ∧
        formatNumber pipe locale (.num n) style (some ".2") c cas =
          .ok (some call₂) ∧
        call₂.options.minimumFractionDigits = some 2 ∧
        call₂.options.minimumIntegerDigits =
          call₀.options.minimumIntegerDigits ∧
        call₂.options.maximumFractionDigits =
          call₀.options.maximumFractionDigits :=
  ⟨⟨n, locale, style, ⟨(defaultBounds style).1, (defaultBounds style).2.1,
      (defaultBounds style).2.2, c, cas⟩⟩,
    ⟨n, locale, style, ⟨(defaultBounds style).1, some 2,
      (defaultBounds style).2.2, c, cas⟩⟩,
    rfl, rfl, rfl, rfl, rfl⟩

/-- Claim C8: the currency entry point with omitted currency code and
omitted symbol-display flag forwards `"USD"` and `false` to the shared
dispatcher. -/
theorem C8_currency_defaults (locale : String) (v : JSValue)
    (digits : Option String) :
    CurrencyPipe_transform locale v none none digits =
      formatNumber .CurrencyPipe locale v .Currency digits
        (some "USD") false :=
  rfl

/-- Claim C9: the formatter is deterministic: its output depends only on
the argument tuple and the input-output behaviour of the collaborator, so
two collaborator functions that agree on every call give identical
results on every fixed tuple. -/
theorem C9_deterministic (g₁ g₂ : CollabCall → String) (pipe : PipeTag)
    (locale : String) (v : JSValue) (style : NumberFormatStyle)
    (digits : Option String) (c : Option String) (cas : Bool)
    (h : ∀ call, g₁ call = g₂ call) :
    formatNumberWith g₁ pipe locale v style digits c cas =
      formatNumberWith g₂ pipe locale v style digits c cas := by
  have hg : g₁ = g₂ := funext h
  rw [formatNumberWith, formatNumberWith, hg]

/-- Witness for C9 at a concrete tuple and a concrete collaborator. -/
theorem C9_witness :
    (∀ call : CollabCall, (fun _ : CollabCall => "out") call =
        (fun _ : CollabCall => "out") call) ∧
      formatNumberWith (fun _ => "out") .PercentPipe "en-US"
          (.num (.num 1)) .Percent none none false =
        formatNumberWith (fun _ => "out") .PercentPipe "en-US"
          (.num (.num 1)) .Percent none none false :=
  ⟨fun _ => rfl,
    C9_deterministic (fun _ => "out") (fun _ => "out") .PercentPipe "en-US"
      (.num (.num 1)) .Percent none none false (fun _ => rfl)⟩

/-- Claim C10: a NaN value passes the numeric-validity check and is
delegated to the collaborator (shown with the style defaults for every
style), and for any numeric value the invalid-pipe-argument error is never
the outcome: the call either succeeds or fails with the invalid-digit-info
error for the supplied spec. -/
theorem C10_nan_delegated :
    (∀ (pipe : PipeTag) (locale : String) (style : NumberFormatStyle)
        (c : Option String) (cas : Bool),
      formatNumber pipe locale (.num .nan) style none c cas =
        .ok (some ⟨.nan, locale, style,
          ⟨(defaultBounds style).1, (defaultBounds style).2.1,
            (defaultBounds style).2.2, c, cas⟩⟩)) ∧
    (∀ (pipe : PipeTag) (locale : String) (style : NumberFormatStyle)
        (digits : Option String) (c : Option String) (cas : Bool)
        (n : JSNumber),
      (∃ call, formatNumber pipe locale (.num n) style digits c cas =
          .ok (some call) ∧ call.value = n) ∨
      (∃ d, digits = some d ∧
        formatNumber pipe locale (.num n) style digits c cas =
          .error (.invalidDigitInfo d))) := by
  refine ⟨fun pipe locale style c cas => rfl, ?_⟩
  intro pipe locale style digits c cas n
  cases digits with
  | none => exact Or.inl ⟨_, rfl, rfl⟩
  | some d =>
    cases hm : matchNumberFormat d with
    | none =>
      refine Or.inr ⟨d, rfl, ?_⟩
      simp [formatNumber, coerceValue, isBlank, hm]
    | some g =>
      obtain ⟨g1, g3, g5⟩ := g
      refine Or.inl ⟨⟨n, locale, style,
        ⟨(match g1 with
          | some ds => some (parseIntAutoRadix ds)
          | none => (defaultBounds style).1),
         (match g3 with
          | some ds => some (parseIntAutoRadix ds)
          | none => (defaultBounds style).2.1),
         (match g5 with
          | some ds => some (parseIntAutoRadix ds)
          | none => (defaultBounds style).2.2), c, cas⟩⟩, ?_, rfl⟩
      cases g1 <;> cases g3 <;> cases g5 <;>
        simp [formatNumber, coerceValue, isBlank, hm]
